import Mathlib

/-!
Verification of the column-value type-conversion framework of this repository
(file src/moncli/types.py) against its natural-language specification.

The development is a shallow embedding: Python runtime values are modelled by
the inductive type PyValue, exceptions by the Except monad over PyErr, and
each converter operation of the source module is translated into a Lean
function that follows the corresponding Python method line by line.  JSON
decoding of the wire strings (json.loads) is abstracted: column payloads carry
the already-decoded value, since no claim under scrutiny depends on the
byte-level JSON syntax.
-/

namespace Moncli

/-- Kinds of Python exceptions that the translated code can raise.  The
mondayTypeError constructor stands for the module-level MondayTypeError class
and validationError for schematics ValidationError. -/
inductive PyErr where
  | attributeError
  | keyError
  | indexError
  | typeError
  | valueError
  | mondayTypeError
  | validationError
  deriving DecidableEq, Repr

/-- Model of the Python runtime values that flow through src/moncli/types.py.
Numbers carry exact decimal semantics: float m s stands for m divided by ten
to the power s (the only floats produced by the module come from parsing
decimal strings).  Class instances of the module (Email, Timeline,
PersonOrTeam, enum members, ColumnValue envelopes) are dedicated
constructors.  A datetime is a count of days since 1970-01-01, a
seconds-of-day field and an optional timezone given as minutes east of UTC
(Option.none models a naive datetime). -/
inductive PyValue where
  | none
  | bool (b : Bool)
  | int (n : Int)
  | float (mantissa : Int) (scale : Nat)
  | str (s : String)
  | list (xs : List PyValue)
  | dict (entries : List (String × PyValue))
  | datetime (days : Int) (secs : Int) (tz : Option Int)
  | emailVal (email text : PyValue)
  | timeline (fromDate toDate : PyValue)
  | personOrTeam (id : PyValue) (kind : String)
  | enum (name : String)
  | columnValue (id title : String) (text : PyValue) (value : PyValue)
      (settings : List (String × PyValue)) (additionalInfo : PyValue)

/-- The JSON text of an empty object; the source stores it in the class
attribute null_value of MondayComplexType as the two-character string. -/
def emptyObj : String := "\x7b\x7d"

/-- Python truthiness (bool(v)) for the modelled values; class instances are
always truthy, containers are truthy when non-empty. -/
def pyTruthy : PyValue → Bool
  | .none => false
  | .bool b => b
  | .int n => n != 0
  | .float m _ => m != 0
  | .str s => s ≠ ""
  | .list xs => ¬ xs.isEmpty
  | .dict es => ¬ es.isEmpty
  | .datetime _ _ _ => true
  | .emailVal _ _ => true
  | .timeline _ _ => true
  | .personOrTeam _ _ => true
  | .enum _ => true
  | .columnValue _ _ _ _ _ _ => true

/-- Python datetime equality: naive compares with naive fieldwise, aware with
aware as instants; a naive and an aware datetime are unequal. -/
def dtEq : Int → Int → Option Int → Int → Int → Option Int → Bool
  | d₁, s₁, Option.none, d₂, s₂, Option.none => d₁ = d₂ ∧ s₁ = s₂
  | d₁, s₁, some o₁, d₂, s₂, some o₂ =>
      d₁ * 86400 + s₁ - o₁ * 60 = d₂ * 86400 + s₂ - o₂ * 60
  | _, _, _, _, _, _ => false

/-- The comparison x == None of the source: true exactly for None itself (no
modelled value overrides equality against None). -/
def pyEqNone : PyValue → Bool
  | .none => true
  | _ => false

/-- The comparison x == "literal" of the source (the null-value sentinels are
string literals): true exactly for the equal string. -/
def pyEqStr (v : PyValue) (s : String) : Bool :=
  match v with
  | .str t => decide (t = s)
  | _ => false

mutual

/-- Python equality (the == operator) on modelled values, used where the
source compares two arbitrary values.  Numeric values compare across
bool/int/float; values of unrelated types are unequal, never an error.
Dictionary equality ignores entry order (keys in decoded JSON objects are
unique, which the one-sided subset check combined with the length test relies
on).  Instances of the module classes (Email, Timeline, PersonOrTeam, column
envelopes) define no equality hook, so Python compares them by identity; the
model compares them fieldwise — no translated code path evaluated by the
theorems below compares two such objects. -/
def pyEq : PyValue → PyValue → Bool
  | .none, .none => true
  | .bool a, .bool b => a = b
  | .bool a, .int n => (if a then (1 : Int) else 0) = n
  | .int n, .bool a => n = (if a then (1 : Int) else 0)
  | .int a, .int b => a = b
  | .int a, .float m s => a * (10 : Int) ^ s = m
  | .float m s, .int a => m = a * (10 : Int) ^ s
  | .float m₁ s₁, .float m₂ s₂ => m₁ * (10 : Int) ^ s₂ = m₂ * (10 : Int) ^ s₁
  | .bool a, .float m s => (if a then (1 : Int) else 0) * (10 : Int) ^ s = m
  | .float m s, .bool a => m = (if a then (1 : Int) else 0) * (10 : Int) ^ s
  | .str a, .str b => a = b
  | .list a, .list b => pyEqList a b
  | .dict a, .dict b => a.length = b.length && pyEqEntries a b
  | .datetime d₁ s₁ o₁, .datetime d₂ s₂ o₂ => dtEq d₁ s₁ o₁ d₂ s₂ o₂
  | .emailVal e₁ t₁, .emailVal e₂ t₂ => pyEq e₁ e₂ && pyEq t₁ t₂
  | .timeline f₁ t₁, .timeline f₂ t₂ => pyEq f₁ f₂ && pyEq t₁ t₂
  | .personOrTeam i₁ k₁, .personOrTeam i₂ k₂ => pyEq i₁ i₂ && k₁ = k₂
  | .enum a, .enum b => a = b
  | _, _ => false

/-- Elementwise Python equality of two lists. -/
def pyEqList : List PyValue → List PyValue → Bool
  | [], [] => true
  | x :: xs, y :: ys => pyEq x y && pyEqList xs ys
  | _, _ => false

/-- Every entry of the first dictionary is present with an equal value in the
second. -/
def pyEqEntries : List (String × PyValue) → List (String × PyValue) → Bool
  | [], _ => true
  | (k, v) :: rest, b =>
      (match b.find? (fun p => p.1 = k) with
        | some p => pyEq v p.2
        | Option.none => false)
      && pyEqEntries rest b

end

/-- Subscription value[key] with the Python error taxonomy: a dictionary
raises KeyError on a missing key, lists index by integers, every other
modelled value is not subscriptable and raises TypeError. -/
def pySubscr : PyValue → PyValue → Except PyErr PyValue
  | .dict es, .str k =>
      match es.find? (fun p => p.1 = k) with
      | some p => .ok p.2
      | Option.none => .error .keyError
  | .dict _, _ => .error .keyError
  | .list xs, .int i =>
      if h : 0 ≤ i ∧ i.toNat < xs.length then .ok (xs.get ⟨i.toNat, h.2⟩)
      else .error .indexError
  | .list _, _ => .error .typeError
  | _, _ => .error .typeError

/-- value.items(): succeeds only on a dictionary, every other value lacks the
attribute. -/
def pyItems : PyValue → Except PyErr (List (String × PyValue))
  | .dict es => .ok es
  | _ => .error .attributeError

/-- Update-or-append of a key in an association list, mirroring assignment
into a Python dict (self.metadata[k] = v). -/
def setKey (m : List (String × PyValue)) (k : String) (v : PyValue) :
    List (String × PyValue) :=
  if m.any (fun p => p.1 = k) then
    m.map (fun p => if p.1 = k then (k, v) else p)
  else m ++ [(k, v)]

/-- Lookup in an association list. -/
def getKey (m : List (String × PyValue)) (k : String) : Option PyValue :=
  (m.find? (fun p => p.1 = k)).map (fun p => p.2)

/-! ### String primitives

The string operations the module uses (str.split, int(), float(), str() of a
number, strip of surrounding blanks) are implemented structurally over the
character list of the string, so that every theorem below evaluates inside
the kernel. -/

/-- Decimal digit test. -/
def isDigitCh (c : Char) : Bool := decide ('0' ≤ c) && decide (c ≤ '9')

/-- Blank test for the characters Python strips in numeric conversions. -/
def isSpaceCh (c : Char) : Bool :=
  decide (c = ' ') || decide (c = '\t') || decide (c = '\n') || decide (c = '\r')

/-- Strip blanks from both ends of a character list. -/
def trimChars (cs : List Char) : List Char :=
  ((cs.dropWhile isSpaceCh).reverse.dropWhile isSpaceCh).reverse

/-- Accumulating decimal reading; Option.none on a non-digit. -/
def natFromDigitsAux : List Char → Nat → Option Nat
  | [], acc => some acc
  | c :: cs, acc =>
      if isDigitCh c then natFromDigitsAux cs (acc * 10 + (c.toNat - 48))
      else Option.none

/-- The natural number denoted by a non-empty all-digit character list. -/
def natFromDigits (cs : List Char) : Option Nat :=
  match cs with
  | [] => Option.none
  | _ => natFromDigitsAux cs 0

/-- The integer denoted by an optionally signed digit string with
surrounding blanks allowed (the acceptance of int() on strings). -/
def intFromChars (cs : List Char) : Option Int :=
  match trimChars cs with
  | '-' :: rest => (natFromDigits rest).map (fun n => -(n : Int))
  | '+' :: rest => (natFromDigits rest).map (fun n => (n : Int))
  | t => (natFromDigits t).map (fun n => (n : Int))

/-- Does the second list start with the first? -/
def leadsWith : List Char → List Char → Bool
  | [], _ => true
  | _ :: _, [] => false
  | a :: as, b :: bs => decide (a = b) && leadsWith as bs

/-- str.split(sep) on character lists, fuel-structural (one unit of fuel per
consumed character, so the caller-supplied length bound suffices); sep is
non-empty at every use site. -/
def splitCharsAux (sep : List Char) : Nat → List Char → List Char →
    List (List Char)
  | _, [], acc => [acc.reverse]
  | 0, cs, acc => [acc.reverse ++ cs]
  | Nat.succ fuel, c :: rest, acc =>
      if leadsWith sep (c :: rest) then
        acc.reverse :: splitCharsAux sep fuel (rest.drop (sep.length - 1)) []
      else splitCharsAux sep fuel rest (c :: acc)

/-- str.split(sep). -/
def splitChars (sep cs : List Char) : List (List Char) :=
  splitCharsAux sep (cs.length + 1) cs []

/-- Decimal rendering of a natural number, fuel-structural. -/
def natDigitsRev : Nat → Nat → List Char
  | 0, _ => []
  | Nat.succ _, 0 => []
  | Nat.succ fuel, n => Char.ofNat (48 + n % 10) :: natDigitsRev fuel (n / 10)

/-- str(n) for a natural number. -/
def renderNat (n : Nat) : String :=
  if n = 0 then "0" else String.mk ((natDigitsRev (n + 1) n).reverse)

/-- str(i) for an integer. -/
def renderInt : Int → String
  | .ofNat n => renderNat n
  | .negSucc n => "-" ++ renderNat (n + 1)

/-! ### Proleptic Gregorian calendar

datetime.strptime / datetime.strftime with the module formats
DATE_FORMAT = "%Y-%m-%d" and TIME_FORMAT = "%H:%M:%S" are modelled on a
day-count representation (days since 1970-01-01), using the standard civil
calendar conversion algorithms. -/

/-- Leap year test of the Gregorian calendar. -/
def isLeap (y : Int) : Bool := (y % 4 = 0 ∧ y % 100 ≠ 0) ∨ y % 400 = 0

/-- Number of days of month m in year y. -/
def daysInMonth (y : Int) (m : Nat) : Nat :=
  match m with
  | 1 => 31 | 3 => 31 | 5 => 31 | 7 => 31 | 8 => 31 | 10 => 31 | 12 => 31
  | 4 => 30 | 6 => 30 | 9 => 30 | 11 => 30
  | 2 => if isLeap y then 29 else 28
  | _ => 0

/-- Days since 1970-01-01 of the civil date y-m-d. -/
def daysFromCivil (y m d : Int) : Int :=
  let y2 : Int := if m ≤ 2 then y - 1 else y
  let era : Int := (if 0 ≤ y2 then y2 else y2 - 399) / 400
  let yoe : Int := y2 - era * 400
  let mp : Int := (m + 9) % 12
  let doy : Int := (153 * mp + 2) / 5 + d - 1
  let doe : Int := yoe * 365 + yoe / 4 - yoe / 100 + doy
  era * 146097 + doe - 719468

/-- Civil date (year, month, day) of a count of days since 1970-01-01. -/
def civilFromDays (z0 : Int) : Int × Int × Int :=
  let z : Int := z0 + 719468
  let era : Int := (if 0 ≤ z then z else z - 146096) / 146097
  let doe : Int := z - era * 146097
  let yoe : Int := (doe - doe / 1460 + doe / 36524 - doe / 146096) / 365
  let y : Int := yoe + era * 400
  let doy : Int := doe - (365 * yoe + yoe / 4 - yoe / 100)
  let mp : Int := (5 * doy + 2) / 153
  let d : Int := doy - (153 * mp + 2) / 5 + 1
  let m : Int := mp + (if mp < 10 then 3 else -9)
  (if m ≤ 2 then y + 1 else y, m, d)

/-- Zero-padded two-digit rendering of a small non-negative integer. -/
def pad2 (n : Int) : String :=
  if n < 10 then "0" ++ renderInt n else renderInt n

/-- Four-digit year rendering (years of interest are 1000-9999). -/
def pad4 (n : Int) : String := renderInt n

/-- strftime(value, DATE_FORMAT) on the day-count representation. -/
def formatDate (z : Int) : String :=
  let c := civilFromDays z
  pad4 c.1 ++ "-" ++ pad2 c.2.1 ++ "-" ++ pad2 c.2.2

/-- strftime(value, TIME_FORMAT) on a seconds-of-day field. -/
def formatTime (secs : Int) : String :=
  pad2 (secs / 3600) ++ ":" ++ pad2 (secs % 3600 / 60) ++ ":" ++ pad2 (secs % 60)

/-- datetime.strptime(s, DATE_FORMAT): three dash-separated decimal fields
with calendar validation; Option.none models the ValueError raised on any
malformed input. -/
def parseDate (s : String) : Option Int :=
  match splitChars ['-'] s.data with
  | [ys, ms, ds] =>
      match natFromDigits ys, natFromDigits ms, natFromDigits ds with
      | some y, some m, some d =>
          if 1 ≤ m ∧ m ≤ 12 ∧ 1 ≤ d ∧ d ≤ daysInMonth (Int.ofNat y) m then
            some (daysFromCivil (Int.ofNat y) (Int.ofNat m) (Int.ofNat d))
          else Option.none
      | _, _, _ => Option.none
  | _ => Option.none

/-- datetime.strptime(s, TIME_FORMAT): seconds of day, Option.none on
malformed input. -/
def parseTimeSecs (s : String) : Option Int :=
  match splitChars [':'] s.data with
  | [hs, ms, ss] =>
      match natFromDigits hs, natFromDigits ms, natFromDigits ss with
      | some h, some m, some sec =>
          if h ≤ 23 ∧ m ≤ 59 ∧ sec ≤ 59 then
            some (Int.ofNat (h * 3600 + m * 60 + sec))
          else Option.none
      | _, _, _ => Option.none
  | _ => Option.none

/-- Normalize a days/seconds pair after arithmetic so that the seconds field
lies in [0, 86400); Int division and remainder are Euclidean in Lean, which is
floor division for the positive divisor used here. -/
def dtNorm (days secs : Int) : Int × Int :=
  let total := days * 86400 + secs
  (total / 86400, total % 86400)

/-- value.astimezone(target) for a wall-clock (days, secs) carried in tz:
a naive value is interpreted in the local timezone (Python 3 semantics),
localOff and the timezone fields are minutes east of UTC. -/
def astimezone (days secs : Int) (tz : Option Int) (target localOff : Int) :
    Int × Int :=
  let src := match tz with | some o => o | Option.none => localOff
  dtNorm days (secs + (target - src) * 60)

/-! ### The class hierarchy of src/moncli/types.py

Attribute resolution along the method resolution order is modelled explicitly
so that a call to a method that no class defines can be shown to raise
AttributeError, exactly as the Python interpreter would. -/

/-- The classes of the module plus the external schematics BaseType that
MondayType extends. -/
inductive Cls where
  | baseType
  | mondayType | mondaySimpleType | mondayComplexType
  | checkboxType | dateType | dropdownType | emailType | itemLinkType
  | longTextType | mirrorType | numberType | peopleType | statusType
  | subitemsType | textType | timelineType | weekType
  deriving DecidableEq, Repr

/-- Method resolution order of each class, read off the single-inheritance
hierarchy of the source file. -/
def mro : Cls → List Cls
  | .baseType => [.baseType]
  | .mondayType => [.mondayType, .baseType]
  | .mondaySimpleType => [.mondaySimpleType, .mondayType, .baseType]
  | .mondayComplexType => [.mondayComplexType, .mondayType, .baseType]
  | .checkboxType => [.checkboxType, .mondayComplexType, .mondayType, .baseType]
  | .dateType => [.dateType, .mondayComplexType, .mondayType, .baseType]
  | .dropdownType => [.dropdownType, .mondayComplexType, .mondayType, .baseType]
  | .emailType => [.emailType, .mondayComplexType, .mondayType, .baseType]
  | .itemLinkType => [.itemLinkType, .mondayComplexType, .mondayType, .baseType]
  | .longTextType => [.longTextType, .mondayComplexType, .mondayType, .baseType]
  | .mirrorType => [.mirrorType, .mondayComplexType, .mondayType, .baseType]
  | .numberType => [.numberType, .mondaySimpleType, .mondayType, .baseType]
  | .peopleType => [.peopleType, .mondayComplexType, .mondayType, .baseType]
  | .statusType => [.statusType, .mondayComplexType, .mondayType, .baseType]
  | .subitemsType => [.subitemsType, .mondayComplexType, .mondayType, .baseType]
  | .textType => [.textType, .mondaySimpleType, .mondayType, .baseType]
  | .timelineType => [.timelineType, .mondayComplexType, .mondayType, .baseType]
  | .weekType => [.weekType, .mondayComplexType, .mondayType, .baseType]

/-- The attribute names each class body defines, transcribed from the source.
For the external schematics BaseType the list is modelled from the spec: the
abstract conversion contract exposes construction, the two conversion
operations, validation and default handling; nothing in the spec gives the
base a method named _is_column_value. -/
def classAttrs : Cls → List String
  | .baseType =>
      ["__init__", "to_native", "to_primitive", "validate", "default", "metadata"]
  | .mondayType =>
      ["null_value", "allow_casts", "__init__", "changed_at", "to_native",
       "to_primitive", "value_changed", "_cast", "_extract_metadata",
       "_convert", "_export", "_null_value_change"]
  | .mondaySimpleType => ["null_value"]
  | .mondayComplexType => ["null_value"]
  | .checkboxType =>
      ["native_type", "primitive_type", "allow_casts", "_convert", "_export",
       "validate_checkbox", "value_changed"]
  | .dateType =>
      ["native_type", "primitive_type", "_convert", "_export",
       "validate_date", "value_changed"]
  | .dropdownType =>
      ["native_type", "primitive_type", "allow_casts", "__init__", "_cast",
       "_convert", "_export", "validate_dropdown", "value_changed"]
  | .emailType =>
      ["Email", "native_type", "primitive_type", "validate_email",
       "value_changed", "_convert", "_export"]
  | .itemLinkType =>
      ["native_type", "primitive_type", "__init__", "multiple_values",
       "validate_itemlink", "value_changed", "_convert", "_export"]
  | .longTextType =>
      ["native_type", "primitive_type", "validate_text", "value_changed",
       "_convert", "_export"]
  | .mirrorType =>
      ["__init__", "to_native", "to_primitive", "value_changed",
       "_get_monday_type"]
  | .numberType =>
      ["primitive_type", "to_native", "to_primitive", "validate_number",
       "value_changed", "_isfloat", "_isint"]
  | .peopleType =>
      ["PersonOrTeam", "Person", "Team", "native_type", "primitive_type",
       "to_native", "to_primitive", "validate_people", "value_changed",
       "_is_person_or_team"]
  | .statusType =>
      ["native_type", "primitive_type", "__init__", "to_native",
       "to_primitive", "validate_status", "value_changed"]
  | .subitemsType =>
      ["native_type", "__init__", "to_native", "validate_subitems",
       "value_changed"]
  | .textType =>
      ["native_type", "primitive_type", "to_native", "to_primitive",
       "validate_text"]
  | .timelineType =>
      ["Timeline", "native_type", "primitive_type", "to_native",
       "to_primitive", "validate_timeline", "value_changed"]
  | .weekType =>
      ["Week", "native_type", "primitive_type", "to_native", "to_primitive",
       "validate_week", "value_changed"]

/-- Python attribute resolution on a class: the first class along the MRO
whose body defines the name. -/
def resolveAttr (c : Cls) (name : String) : Option Cls :=
  (mro c).find? (fun k => (classAttrs k).contains name)

/-- A call to self._is_column_value(value).  No class of the module and no
in-source base defines this method, so resolution fails and the call raises
AttributeError; the ok branch would run the resolved body if one existed. -/
def callIsColumnValue (c : Cls) (v : PyValue) : Except PyErr PyValue :=
  match resolveAttr c "_is_column_value" with
  | some _ => .ok v
  | Option.none => .error .attributeError

/-! ### The conversion contract (class MondayType) -/

/-- The per-instance state of a converter: the metadata dictionary and the
original_value baseline set by the last decode. -/
structure MondayState where
  metadata : List (String × PyValue)
  originalValue : PyValue

/-- A fresh converter instance bound to a column id, as MondayType.__init__
leaves it (original_value None, metadata holding the id). -/
def initState (id : String) : MondayState :=
  { metadata := [("id", .str id)], originalValue := .none }

/-- MondayType._extract_metadata: value.pop("changed_at", None) inside a
swallow-all try block.  On a dictionary the pop always succeeds (first
component reports the popped value to store under metadata["changed_at"]);
on any other value the attribute or call error is swallowed and nothing is
recorded. -/
def extractChangedAt : PyValue → Option PyValue × PyValue
  | .dict es =>
      (some (match getKey es "changed_at" with
              | some c => c
              | Option.none => PyValue.none),
       .dict (es.filter (fun p => p.1 ≠ "changed_at")))
  | v => (Option.none, v)

/-- MondayType._convert, the default decode hook: return the decoded wire
data unchanged. -/
def defaultConvert (_md : List (String × PyValue)) (_text data _addl : PyValue) :
    Except PyErr PyValue :=
  .ok data

/-- MondayType.to_native translated clause by clause.  It is parameterized by
the subclass hooks that the dynamic dispatch of the source would select:
allowCast (membership test against the allow_casts tuple), cast (_cast) and
convert (_convert, receiving the metadata as merged so far — some hooks read
self.metadata — together with the text, decoded value and additional info of
the column payload). -/
def baseToNative (allowCast : PyValue → Bool)
    (cast : PyValue → Except PyErr PyValue)
    (convert : List (String × PyValue) → PyValue → PyValue → PyValue →
      Except PyErr PyValue)
    (st : MondayState) (v : PyValue) : Except PyErr (MondayState × PyValue) :=
  if ¬ pyTruthy v then .ok (st, v)
  else
    match v with
    | .columnValue id title text value settings addl =>
        let md := setKey (setKey st.metadata "id" (.str id)) "title" (.str title)
        let md := settings.foldl (fun m p => setKey m p.1 p.2) md
        let (popped, loaded) := extractChangedAt value
        let md := match popped with
          | some c => setKey md "changed_at" c
          | Option.none => md
        match convert md text loaded addl with
        | .ok conv => .ok ({ metadata := md, originalValue := conv }, conv)
        | .error e => .error e
    | _ =>
        if allowCast v then (cast v).map (fun c => (st, c))
        else .ok (st, v)

/-- MondayType.to_primitive: the null_value rail, the falsy-native fallback
and the delegation to the _export hook of the concrete converter. -/
def baseToPrimitive (nullValue : PyValue)
    (exportHook : PyValue → Except PyErr PyValue) (v : PyValue) :
    Except PyErr PyValue :=
  if ¬ pyTruthy nullValue then .ok .none
  else if ¬ pyTruthy v then .ok nullValue
  else exportHook v

/-- MondayType._null_value_change: returns True, False or (implicitly) None;
membership in the list [None, null_value] is Python equality, and the
null_value of every converter instantiating this is a string sentinel. -/
def mondayNullValueChange (orig : PyValue) (nullValue : String)
    (value : PyValue) : PyValue :=
  if pyEqNone orig || pyEqStr orig nullValue then
    .bool (¬ pyEqStr value nullValue)
  else if pyEqStr value nullValue then
    .bool (¬ pyEqStr orig nullValue)
  else .none

/-- Convenience: project the native value out of a to_native result. -/
def decoded (r : Except PyErr (MondayState × PyValue)) : Except PyErr PyValue :=
  r.map (fun p => p.2)

/-! ### CheckboxType -/

/-- CheckboxType._convert: bool(value["checked"]) with a swallow-all handler
returning False. -/
def checkboxConvert (_md : List (String × PyValue)) (_text value _addl : PyValue) :
    Except PyErr PyValue :=
  .ok (.bool (match pySubscr value (.str "checked") with
              | .ok c => pyTruthy c
              | .error _ => false))

/-- CheckboxType._export. -/
def checkboxExport (v : PyValue) : Except PyErr PyValue :=
  if ¬ pyTruthy v then .ok (.str emptyObj)
  else .ok (.dict [("checked", .str "true")])

/-- CheckboxType membership test against allow_casts = (str, int). -/
def checkboxAllowCast : PyValue → Bool
  | .str _ => true
  | .int _ => true
  | .bool _ => true
  | _ => false

/-- CheckboxType inherits MondayType.to_native; its _cast is bool(value).
Python bool subclasses int, so a bool passes the isinstance check too. -/
def checkboxToNative (st : MondayState) (v : PyValue) :
    Except PyErr (MondayState × PyValue) :=
  baseToNative checkboxAllowCast (fun w => .ok (.bool (pyTruthy w)))
    checkboxConvert st v

/-- CheckboxType inherits MondayType.to_primitive with null_value set by
MondayComplexType. -/
def checkboxToPrimitive (v : PyValue) : Except PyErr PyValue :=
  baseToPrimitive (.str emptyObj) checkboxExport v

/-! ### DateType -/

/-- DateType._convert.  localOff is the UTC offset of the local timezone in
minutes (datetime.now().astimezone().tzinfo in the source).  The first try
block parses value["date"]; any failure returns None.  The second try block
runs only when value["time"] is present and non-null: the date is localized
to UTC, the time string is parsed and added, and the result converted to the
local timezone; a failure after the localization leaves the (already aware)
midnight value to be returned by the trailing return statement. -/
def dateConvert (localOff : Int) (_md : List (String × PyValue))
    (_text value _addl : PyValue) :
    Except PyErr PyValue :=
  match pySubscr value (.str "date") with
  | .ok (.str ds) =>
      match parseDate ds with
      | some days =>
          (match pySubscr value (.str "time") with
            | .error _ => .ok (.datetime days 0 Option.none)
            | .ok tv =>
                if ¬ pyEqNone tv then
                  match tv with
                  | .str ts =>
                      match parseTimeSecs ts with
                      | some secs =>
                          let sh := astimezone days secs (some 0) localOff localOff
                          .ok (.datetime sh.1 sh.2 (some localOff))
                      | Option.none => .ok (.datetime days 0 (some 0))
                  | _ => .ok (.datetime days 0 (some 0))
                else .ok (.datetime days 0 Option.none))
      | Option.none => .ok PyValue.none
  | .ok _ => .ok PyValue.none
  | .error _ => .ok PyValue.none

/-- DateType._export: the time string is computed from the wall-clock value
before the UTC conversion and replaced by null when it is midnight; the date
(and, when present, the time) re-rendered afterwards comes from the value
converted to UTC, a naive value being interpreted in the local timezone. -/
def dateExport (localOff : Int) (v : PyValue) : Except PyErr PyValue :=
  match v with
  | .datetime days secs tz =>
      let timeIsNull := formatTime secs = "00:00:00"
      let u := astimezone days secs tz 0 localOff
      .ok (.dict [("date", .str (formatDate u.1)),
                  ("time", if timeIsNull then PyValue.none
                           else .str (formatTime u.2))])
  | _ => .error .typeError

/-- DateType inherits MondayType.to_native (no allow_casts). -/
def dateToNative (localOff : Int) (st : MondayState) (v : PyValue) :
    Except PyErr (MondayState × PyValue) :=
  baseToNative (fun _ => false) (fun w => .ok w) (dateConvert localOff) st v

/-- DateType inherits MondayType.to_primitive. -/
def dateToPrimitive (localOff : Int) (v : PyValue) : Except PyErr PyValue :=
  baseToPrimitive (.str emptyObj) (dateExport localOff) v

/-- The per-key comparison loop of DateType.value_changed: only KeyError is
caught (and reports a change); a TypeError from subscripting a
non-subscriptable baseline propagates. -/
def dateValueChangedLoop (orig : PyValue) :
    List (String × PyValue) → Except PyErr PyValue
  | [] => .ok (.bool false)
  | (k, v) :: rest =>
      match pySubscr orig (.str k) with
      | .error .keyError => .ok (.bool true)
      | .error e => .error e
      | .ok ov =>
          if ¬ pyEq ov v then .ok (.bool true)
          else dateValueChangedLoop orig rest

/-- DateType.value_changed: the null-value screen, then value.items() (an
AttributeError on anything but a dictionary), then the per-key loop. -/
def dateValueChanged (st : MondayState) (value : PyValue) :
    Except PyErr PyValue :=
  if pyTruthy (mondayNullValueChange st.originalValue emptyObj value)
  then .ok (.bool true)
  else do
    let items ← pyItems value
    dateValueChangedLoop st.originalValue items

/-! ### TimelineType -/

/-- The parse attempted by the try block of TimelineType.to_native:
datetime.strptime(value["from"], DATE_FORMAT) and the same for "to".  Every
failure mode (missing key, non-subscriptable value, non-string field,
malformed date) collapses to Option.none, which the caller turns into
MondayTypeError. -/
def timelineParse (v : PyValue) : Option (Int × Int) :=
  match pySubscr v (.str "from") with
  | .ok (.str f) =>
      match pySubscr v (.str "to") with
      | .ok (.str t) =>
          match parseDate f, parseDate t with
          | some df, some dt => some (df, dt)
          | _, _ => Option.none
      | _ => Option.none
  | _ => Option.none

/-- TimelineType.to_native: a value that already is a Timeline instance is
returned as is; otherwise the inherited decode runs (TimelineType defines no
_convert, so the baseline is the decoded wire dictionary) and the from/to
fields are parsed, raising MondayTypeError when anything goes wrong. -/
def timelineToNative (st : MondayState) (v : PyValue) :
    Except PyErr (MondayState × PyValue) :=
  match v with
  | .timeline f t => .ok (st, .timeline f t)
  | _ =>
      match baseToNative (fun _ => false) (fun w => .ok w) defaultConvert st v with
      | .error e => .error e
      | .ok (st', val) =>
          match timelineParse val with
          | some (df, dt) =>
              .ok (st', .timeline (.datetime df 0 Option.none)
                                  (.datetime dt 0 Option.none))
          | Option.none => .error .mondayTypeError

/-! ### EmailType -/

/-- EmailType._convert: the null comparison tests the decoded dictionary
against the string sentinel (never equal for a dictionary); the no-argument
Email() construction of the null branch would itself raise TypeError since
Email.__init__ requires the email argument; otherwise the email and text
fields are read (KeyError propagates, nothing catches it here) and
Email.__init__ substitutes the email for a falsy text. -/
def emailConvert (_md : List (String × PyValue)) (_text value _addl : PyValue) :
    Except PyErr PyValue :=
  if pyEqStr value emptyObj then .error .typeError
  else do
    let em ← pySubscr value (.str "email")
    let tx ← pySubscr value (.str "text")
    .ok (.emailVal em (if ¬ pyTruthy tx then em else tx))

/-- EmailType._export: the guard reads value.email, but the returned
dictionary literal reads self.email and self.text; the converter instance has
no attributes of those names (the value object does), so a non-empty email
raises AttributeError. -/
def emailExport (v : PyValue) : Except PyErr PyValue :=
  match v with
  | .emailVal em _tx =>
      if ¬ pyTruthy em then .ok (.str emptyObj)
      else .error .attributeError
  | _ => .error .attributeError

/-- EmailType inherits MondayType.to_native. -/
def emailToNative (st : MondayState) (v : PyValue) :
    Except PyErr (MondayState × PyValue) :=
  baseToNative (fun _ => false) (fun w => .ok w) emailConvert st v

/-- EmailType inherits MondayType.to_primitive. -/
def emailToPrimitive (v : PyValue) : Except PyErr PyValue :=
  baseToPrimitive (.str emptyObj) emailExport v

/-! ### DropdownType -/

/-- DropdownType.__init__: the _data_mapping attribute is assigned only when
the data_mapping argument is truthy; Option.none models the attribute never
having been set. -/
def dropdownInit (dm : Option (List (String × PyValue))) :
    Option (List (String × PyValue)) :=
  match dm with
  | some m => if m.isEmpty then Option.none else some m
  | Option.none => Option.none

/-- The list comprehension over self._data_mapping: all labels must be keys
of the mapping, a single miss raises KeyError (reported as Option.none). -/
def mapLabels (m : List (String × PyValue)) :
    List String → Option (List PyValue)
  | [] => some []
  | l :: ls =>
      match getKey m l with
      | some v => (mapLabels m ls).map (fun rest => v :: rest)
      | Option.none => Option.none

/-- DropdownType._convert: text.split(", ") is guarded by a swallow-all
handler returning the default (the empty list); the subsequent access to
self._data_mapping is not guarded and raises AttributeError when __init__
never assigned the attribute; with a mapping, a KeyError of the comprehension
is swallowed into the default. -/
def dropdownConvert (dataMapping : Option (List (String × PyValue)))
    (_md : List (String × PyValue)) (text _data _addl : PyValue) :
    Except PyErr PyValue :=
  match text with
  | .str s =>
      let labels := (splitChars ", ".data s.data).map String.mk
      match dataMapping with
      | Option.none => .error .attributeError
      | some m =>
          if m.isEmpty then .ok (.list (labels.map .str))
          else
            match mapLabels m labels with
            | some vs => .ok (.list vs)
            | Option.none => .ok (.list [])
  | _ => .ok (.list [])

/-- DropdownType membership test against allow_casts = (str, Enum). -/
def dropdownAllowCast : PyValue → Bool
  | .str _ => true
  | .enum _ => true
  | _ => false

/-- DropdownType inherits MondayType.to_native; its _cast wraps the raw value
in a one-element list. -/
def dropdownToNative (dataMapping : Option (List (String × PyValue)))
    (st : MondayState) (v : PyValue) : Except PyErr (MondayState × PyValue) :=
  baseToNative dropdownAllowCast (fun w => .ok (.list [w]))
    (dropdownConvert dataMapping) st v

/-! ### Python numeric and string conversions used by NumberType
and ItemLinkType -/

/-- Decimal rendering of the model float (an approximation of repr used only
for str() on numeric values). -/
def floatRender (m : Int) (s : Nat) : String :=
  if s = 0 then renderInt m ++ ".0"
  else
    let a := m.natAbs
    let q := a / 10 ^ s
    let r := a % 10 ^ s
    let frac := renderNat r
    let frac := String.mk (List.replicate (s - frac.length) '0') ++ frac
    (if m < 0 then "-" else "") ++ renderNat q ++ "." ++ frac

/-- str(value) for the values the module stringifies. -/
def pyStrOf : PyValue → String
  | .int n => renderInt n
  | .float m s => floatRender m s
  | .str s => s
  | .bool b => if b then "True" else "False"
  | .none => "None"
  | _ => "object"

/-- float(s) on a string: optional sign, then digits with an optional decimal
point (scientific notation and the inf/nan spellings do not occur in monday
wire text and are not modelled); Option.none is the ValueError. -/
def parseDecimal (s : String) : Option (Int × Nat) :=
  let t := trimChars s.data
  let (neg, body) :=
    match t with
    | '-' :: rest => (true, rest)
    | '+' :: rest => (false, rest)
    | _ => (false, t)
  match splitChars ['.'] body with
  | [ip] => (natFromDigits ip).map (fun n => ((if neg then -(n : Int) else n), 0))
  | [ip, fp] =>
      if ip.isEmpty ∧ fp.isEmpty then Option.none
      else
        match (if ip.isEmpty then some 0 else natFromDigits ip),
              (if fp.isEmpty then some 0 else natFromDigits fp) with
        | some i, some f =>
            let scale := fp.length
            let mag : Int := (i : Int) * (10 : Int) ^ scale + f
            some ((if neg then -mag else mag), scale)
        | _, _ => Option.none
  | _ => Option.none

/-- float(value): numbers convert, strings parse (ValueError when malformed),
anything else raises TypeError. -/
def pyFloat : PyValue → Except PyErr (Int × Nat)
  | .int n => .ok (n, 0)
  | .float m s => .ok (m, s)
  | .bool b => .ok ((if b then 1 else 0), 0)
  | .str s =>
      match parseDecimal s with
      | some p => .ok p
      | Option.none => .error .valueError
  | _ => .error .typeError

/-- int(value): floats truncate toward zero, strings must be integer
literals (int("3.5") raises ValueError), anything else raises TypeError. -/
def pyToInt : PyValue → Except PyErr PyValue
  | .int n => .ok (.int n)
  | .bool b => .ok (.int (if b then 1 else 0))
  | .float m s => .ok (.int (Int.tdiv m ((10 : Int) ^ s)))
  | .str s =>
      match intFromChars s.data with
      | some n => .ok (.int n)
      | Option.none => .error .valueError
  | _ => .error .typeError

/-- NumberType._isint: a = float(value); b = int(a); return a == b.  Only
ValueError is caught (returning False); a TypeError from float() propagates. -/
def numberIsInt (v : PyValue) : Except PyErr Bool :=
  match pyFloat v with
  | .ok (m, s) => .ok (decide (m % (10 : Int) ^ s = 0))
  | .error .valueError => .ok false
  | .error e => .error e

/-- NumberType._isfloat: float(value) succeeds; only ValueError is caught. -/
def numberIsFloat (v : PyValue) : Except PyErr Bool :=
  match pyFloat v with
  | .ok _ => .ok true
  | .error .valueError => .ok false
  | .error e => .error e

/-! ### ItemLinkType -/

/-- ItemLinkType.__init__ records the construction flag under the metadata
key "allowMultipleItems" (and switches native_type for single mode). -/
def itemLinkInit (id : String) (multipleValues : Bool) : MondayState :=
  { metadata := setKey (initState id).metadata "allowMultipleItems"
      (.bool multipleValues),
    originalValue := .none }

/-- The multiple_values property reads metadata["allowMultipleValues"], a key
__init__ never writes (it writes "allowMultipleItems"), so the read raises
KeyError unless the column settings happened to supply that key. -/
def itemLinkMultipleValues (md : List (String × PyValue)) :
    Except PyErr PyValue :=
  match getKey md "allowMultipleValues" with
  | some v => .ok v
  | Option.none => .error .keyError

/-- The guarded comprehension of ItemLinkType._convert: any failure while
collecting value["linkedPulseIds"][i]["linkedPulseId"] leaves ids = []. -/
def itemLinkIds (value : PyValue) : List PyValue :=
  match pySubscr value (.str "linkedPulseIds") with
  | .ok (.list items) =>
      match items.mapM (fun it => (pySubscr it (.str "linkedPulseId")).toOption) with
      | some l => l
      | Option.none => []
  | _ => []

/-- ItemLinkType._convert: ids first, then the multiple_values property (whose
KeyError propagates), then the single/multi shaping with str() over the
ids. -/
def itemLinkConvert (md : List (String × PyValue)) (_text value _addl : PyValue) :
    Except PyErr PyValue := do
  let ids := itemLinkIds value
  let mv ← itemLinkMultipleValues md
  if ¬ pyTruthy mv then
    match ids.head? with
    | some x => .ok (.str (pyStrOf x))
    | Option.none => .ok PyValue.none
  else .ok (.list (ids.map (fun x => .str (pyStrOf x))))

/-- ItemLinkType inherits MondayType.to_native. -/
def itemLinkToNative (st : MondayState) (v : PyValue) :
    Except PyErr (MondayState × PyValue) :=
  baseToNative (fun _ => false) (fun w => .ok w) itemLinkConvert st v

/-- ItemLinkType.value_changed: a None candidate is replaced by the null
sentinel, then the inherited null screen runs; the next statement reads
self.self.multiple_values, and the converter instance has no attribute named
self, so every execution reaching it raises AttributeError (the set
comparison and its inverted booleans further down are unreachable). -/
def itemLinkValueChanged (st : MondayState) (value : PyValue) :
    Except PyErr PyValue :=
  let value := if pyEq value PyValue.none then PyValue.str emptyObj else value
  if pyTruthy (mondayNullValueChange st.originalValue emptyObj value)
  then .ok (.bool true)
  else .error .attributeError

/-! ### NumberType -/

/-- NumberType.to_native: the very first statement calls
self._is_column_value(value), which no class defines.  The remainder (null
comparison against the simple-type sentinel, the int/float sniffing that also
mutates native_type, and the implicit None fall-through) is translated all the
same. -/
def numberToNative (st : MondayState) (v : PyValue) : Except PyErr PyValue := do
  let chk ← callIsColumnValue Cls.numberType v
  if ¬ pyTruthy chk then return v
  else do
    let r ← baseToNative (fun _ => false) (fun w => .ok w) defaultConvert st v
    let value := r.2
    if pyEqStr value "" then return PyValue.none
    else do
      let isInt ← numberIsInt value
      if isInt then pyToInt value
      else do
        let isF ← numberIsFloat value
        if isF then
          match pyFloat value with
          | .ok (m, s) => .ok (.float m s)
          | .error e => .error e
        else return PyValue.none

/-- NumberType.to_primitive (an override, no null_value rail). -/
def numberToPrimitive (v : PyValue) : Except PyErr PyValue :=
  if ¬ pyTruthy v then .ok (.str "") else .ok (.str (pyStrOf v))

/-- NumberType.validate_number: type(value) must be exactly int or float
(bool is its own type and fails). -/
def numberValidate (v : PyValue) : Except PyErr Unit :=
  match v with
  | .int _ => .ok ()
  | .float _ _ => .ok ()
  | _ => .error .validationError

/-- NumberType.value_changed calls self._null_value_change(value,
self.null_value): the inherited method takes one argument besides self, so
the call raises TypeError. -/
def numberValueChanged (_st : MondayState) (_value : PyValue) :
    Except PyErr PyValue :=
  .error .typeError

/-! ### TextType -/

/-- TextType.to_native: the guard calls the undefined _is_column_value; the
else branch would delegate to the inherited decode. -/
def textToNative (st : MondayState) (v : PyValue) : Except PyErr PyValue := do
  let chk ← callIsColumnValue Cls.textType v
  if ¬ pyTruthy chk then return v
  else decoded (baseToNative (fun _ => false) (fun w => .ok w) defaultConvert st v)

/-- TextType.to_primitive. -/
def textToPrimitive (v : PyValue) : Except PyErr PyValue :=
  .ok (if ¬ pyTruthy v then .str "" else v)

/-! ### StatusType -/

/-- StatusType.__init__.  With a truthy data_mapping the source evaluates
data_mapping.values()[0]: in Python 3 a dict_values view is not subscriptable,
so construction raises TypeError before anything else happens.  A falsy
mapping skips that branch; _data_mapping is assigned unconditionally
afterwards. -/
def statusInit (dm : Option (List (String × PyValue))) :
    Except PyErr (Option (List (String × PyValue))) :=
  match dm with
  | some m => if m.isEmpty then .ok (some m) else .error .typeError
  | Option.none => .ok Option.none

/-- StatusType.to_native: the undefined _is_column_value guard first; then the
inherited decode, then value.text either returned directly (no mapping) or
looked up in the mapping under a swallow-all handler returning None. -/
def statusToNative (dataMapping : Option (List (String × PyValue)))
    (st : MondayState) (v : PyValue) : Except PyErr PyValue := do
  let chk ← callIsColumnValue Cls.statusType v
  if ¬ pyTruthy chk then return v
  else do
    let _ ← baseToNative (fun _ => false) (fun w => .ok w) defaultConvert st v
    let mappingTruthy : Bool := match dataMapping with
      | some m => ¬ m.isEmpty
      | Option.none => false
    if ¬ mappingTruthy then
      match v with
      | .columnValue _ _ text _ _ _ => .ok text
      | _ => .error .attributeError
    else
      match dataMapping, v with
      | some m, .columnValue _ _ text _ _ _ =>
          (match text with
            | .str ts =>
                (match getKey m ts with
                  | some mv => .ok mv
                  | Option.none => .ok PyValue.none)
            | _ => .ok PyValue.none)
      | _, _ => .ok PyValue.none

/-! ### PeopleType -/

/-- PeopleKind[v["kind"]]: only the person and team enumerants exist. -/
def peopleKindLookup : PyValue → Except PyErr String
  | .str "person" => .ok "person"
  | .str "team" => .ok "team"
  | _ => .error .keyError

/-- The loop of PeopleType.to_native building PersonOrTeam records. -/
def peopleBuild : List PyValue → Except PyErr (List PyValue)
  | [] => .ok []
  | x :: xs => do
      let kv ← pySubscr x (.str "kind")
      let kind ← peopleKindLookup kv
      let idv ← pySubscr x (.str "id")
      let rest ← peopleBuild xs
      .ok (.personOrTeam idv kind :: rest)

/-- PeopleType.to_native: the undefined _is_column_value guard first; then the
inherited decode, the max_people_allowed setting (int() under a swallow-all
fallback to 0), the null-sentinel comparison and the personsAndTeams loop;
with max_people_allowed = 1 the single element is returned (result[0], an
IndexError when the list is empty). -/
def peopleToNative (st : MondayState) (v : PyValue) : Except PyErr PyValue := do
  let chk ← callIsColumnValue Cls.peopleType v
  if ¬ pyTruthy chk then return v
  else do
    let r ← baseToNative (fun _ => false) (fun w => .ok w) defaultConvert st v
    let maxP : Int := match getKey r.1.metadata "max_people_allowed" with
      | some (.int n) => n
      | some (.str s) => match intFromChars s.data with | some n => n | Option.none => 0
      | _ => 0
    if pyEqStr r.2 emptyObj then return (.list [])
    else do
      let pats ← pySubscr r.2 (.str "personsAndTeams")
      match pats with
      | .list xs => do
          let built ← peopleBuild xs
          if maxP = 1 then
            match built.head? with
            | some h => .ok h
            | Option.none => .error .indexError
          else .ok (.list built)
      | _ => .error .typeError

/-! ### SubitemsType -/

/-- SubitemsType.to_native: the undefined _is_column_value guard first; the
rest delegates to the external client (fetch) and wraps each fetched item in
the declared record model (mkModel), both supplied as parameters since they
are external collaborators. -/
def subitemsToNative (fetch : List PyValue → List PyValue)
    (mkModel : PyValue → PyValue) (st : MondayState) (v : PyValue) :
    Except PyErr PyValue := do
  let chk ← callIsColumnValue Cls.subitemsType v
  if ¬ pyTruthy chk then return v
  else do
    let r ← baseToNative (fun _ => false) (fun w => .ok w) defaultConvert st v
    if pyEqStr r.2 emptyObj then return (.list [])
    else do
      let lp ← pySubscr r.2 (.str "linkedPulseIds")
      match lp with
      | .list items => do
          let ids ← items.mapM (fun it => pySubscr it (.str "linkedPulseId"))
          .ok (.list ((fetch ids).map mkModel))
      | _ => .error .typeError

/-! ### MirrorType -/

/-- MirrorType.to_native: the undefined _is_column_value guard first.  The
rest re-runs the inherited decode, then either delegates to a freshly
instantiated Number converter with the text re-encoded as the wire value, or
returns the default (None) — the source compares the undecoded value string
against the sentinel, and both that branch and the implicit fall-through
produce None. -/
def mirrorToNative (mirrorsNumber : Bool)
    (delegate : PyValue → Except PyErr PyValue) (st : MondayState)
    (v : PyValue) : Except PyErr PyValue := do
  let chk ← callIsColumnValue Cls.mirrorType v
  if ¬ pyTruthy chk then return v
  else do
    let _ ← baseToNative (fun _ => false) (fun w => .ok w) defaultConvert st v
    if mirrorsNumber then
      match v with
      | .columnValue id title text _ settings addl =>
          delegate (.columnValue id title text text settings addl)
      | _ => .error .attributeError
    else
      match v with
      | .columnValue _ _ _ _ _ _ => .ok PyValue.none
      | _ => .error .attributeError

/-! ### Class-level constants for the encode rail -/

/-- The class bodies that assign null_value. -/
def classNullValue : Cls → Option PyValue
  | .mondayType => some PyValue.none
  | .mondaySimpleType => some (.str "")
  | .mondayComplexType => some (.str emptyObj)
  | _ => Option.none

/-- The null_value a class sees, resolved along the MRO. -/
def nullValueOf (c : Cls) : PyValue :=
  match (mro c).findSome? classNullValue with
  | some v => v
  | Option.none => PyValue.none

/-- Whether to_primitive resolves to the inherited MondayType.to_primitive
(no override anywhere below it). -/
def usesBaseToPrimitive (c : Cls) : Bool :=
  resolveAttr c "to_primitive" == some Cls.mondayType

/-- The concrete per-column converters (as opposed to the abstract contract
and the two null-value base variants). -/
def isConcreteConverter : Cls → Bool
  | .baseType | .mondayType | .mondaySimpleType | .mondayComplexType => false
  | _ => true

/-! ### Concrete payloads and states used by the theorems -/

/-- A freshly constructed converter bound to column id "c". -/
def sampleState : MondayState := initState "c"

/-- A column payload envelope with the given rendered text and decoded wire
value; id, title, settings and additional info are inert. -/
def mkPayload (text value : PyValue) : PyValue :=
  .columnValue "c" "Col" text value [] PyValue.none

/-- The date wire value of the spec example: date 2024-01-15, null time. -/
def datePayload : PyValue :=
  mkPayload PyValue.none (.dict [("date", .str "2024-01-15"), ("time", PyValue.none)])

/-- Decode the date payload and re-encode the resulting native value, in a
local timezone sitting localOff minutes east of UTC. -/
def dateRoundTrip (localOff : Int) : Except PyErr PyValue := do
  let r ← dateToNative localOff sampleState datePayload
  dateToPrimitive localOff r.2

/-- An email wire value with distinct email and text fields. -/
def emailPayload : PyValue :=
  mkPayload (.str "a@b.com")
    (.dict [("email", .str "a@b.com"), ("text", .str "hi")])

/-- A link-to-items wire value holding a single linked pulse id. -/
def itemLinkPayload : PyValue :=
  mkPayload PyValue.none
    (.dict [("linkedPulseIds", .list [.dict [("linkedPulseId", .int 12)]])])

/-- The data mapping of the spec example for Dropdown. -/
def doneMapping : List (String × PyValue) := [("Done", .enum "DONE")]

end Moncli

namespace Moncli

/-! ### Theorems settling the claims -/

/-- C10: for every input value, to_native on NumberType, TextType,
StatusType, PeopleType, SubitemsType and MirrorType raises AttributeError
before any decoding, because each override first calls
self._is_column_value, a method that resolves nowhere along the in-source
class hierarchy. -/
theorem overridden_to_native_raises_attribute_error_missing_method
    (v : PyValue) (st : MondayState) (dm : Option (List (String × PyValue)))
    (fetch : List PyValue → List PyValue) (mk : PyValue → PyValue)
    (mirrorsNumber : Bool) (delegate : PyValue → Except PyErr PyValue) :
    resolveAttr Cls.numberType "_is_column_value" = Option.none ∧
    resolveAttr Cls.textType "_is_column_value" = Option.none ∧
    resolveAttr Cls.statusType "_is_column_value" = Option.none ∧
    resolveAttr Cls.peopleType "_is_column_value" = Option.none ∧
    resolveAttr Cls.subitemsType "_is_column_value" = Option.none ∧
    resolveAttr Cls.mirrorType "_is_column_value" = Option.none ∧
    numberToNative st v = .error .attributeError ∧
    textToNative st v = .error .attributeError ∧
    statusToNative dm st v = .error .attributeError ∧
    peopleToNative st v = .error .attributeError ∧
    subitemsToNative fetch mk st v = .error .attributeError ∧
    mirrorToNative mirrorsNumber delegate st v = .error .attributeError :=
  ⟨rfl, rfl, rfl, rfl, rfl, rfl, rfl, rfl, rfl, rfl, rfl, rfl⟩

/-- C4: decode-error policy is converter-specific.  For every column payload
whose decoded wire value is malformed for the timeline schema, the Timeline
decode raises MondayTypeError; for every payload malformed for the checkbox
schema (the checked subscript fails), the Checkbox decode swallows the
failure and returns False. -/
theorem timeline_raises_checkbox_defaults_on_malformed
    (v w : PyValue) (st st' : MondayState)
    (hv : timelineParse (extractChangedAt v).2 = Option.none)
    (hw : ∃ e, pySubscr (extractChangedAt w).2 (.str "checked") = .error e) :
    timelineToNative st (mkPayload PyValue.none v) = .error .mondayTypeError ∧
    decoded (checkboxToNative st' (mkPayload PyValue.none w)) =
      .ok (.bool false) := by
  obtain ⟨e, he⟩ := hw
  constructor
  · simp [timelineToNative, mkPayload, baseToNative, defaultConvert, pyTruthy, hv]
  · simp [decoded, checkboxToNative, mkPayload, baseToNative, checkboxConvert,
      pyTruthy, he, Except.map]

/-- Closed instance of the C4 theorem at the empty wire object. -/
theorem timeline_raises_checkbox_defaults_on_malformed_witness :
    timelineToNative sampleState (mkPayload PyValue.none (.dict [])) =
      .error .mondayTypeError ∧
    decoded (checkboxToNative sampleState (mkPayload PyValue.none (.dict []))) =
      .ok (.bool false) :=
  timeline_raises_checkbox_defaults_on_malformed (.dict []) (.dict [])
    sampleState sampleState rfl ⟨.keyError, rfl⟩

/-- C5: decoding the date wire value 2024-01-15 with null time yields the
naive (local) midnight of 2024-01-15 as claimed, but re-encoding does not
reproduce the wire value in every local timezone: at UTC+01:00 the export
renders the previous day, because _export converts the naive midnight to UTC
before rendering the date; at UTC and west of UTC the round trip holds. -/
theorem date_midnight_round_trip_shifts_date_east_of_utc :
    decoded (dateToNative 60 sampleState datePayload) =
      .ok (.datetime (daysFromCivil 2024 1 15) 0 Option.none) ∧
    dateRoundTrip 60 =
      .ok (.dict [("date", .str "2024-01-14"), ("time", PyValue.none)]) ∧
    dateRoundTrip 0 =
      .ok (.dict [("date", .str "2024-01-15"), ("time", PyValue.none)]) ∧
    dateRoundTrip (-300) =
      .ok (.dict [("date", .str "2024-01-15"), ("time", PyValue.none)]) :=
  ⟨rfl, rfl, rfl, rfl⟩

/-- C2: change detection is not reflexive on the Date converter.  After
decoding the date payload (baseline = the decoded datetime), value_changed
applied to that very baseline raises AttributeError (the candidate is
iterated with .items(), which a datetime does not have) instead of returning
false. -/
theorem date_value_changed_raises_on_unchanged_baseline :
    (do
      let r ← dateToNative 0 sampleState datePayload
      dateValueChanged r.1 r.2) = .error .attributeError :=
  rfl

/-- C3: ItemLink change detection never performs the claimed set comparison:
with a multi-value converter whose decoded baseline is the id list
["1", "2"] and a candidate whose id set is equal up to order, value_changed
raises AttributeError (the source reads self.self.multiple_values), and the
decode that should establish the baseline itself raises KeyError because
__init__ stores the flag under allowMultipleItems while the multiple_values
property reads allowMultipleValues. -/
theorem itemlink_value_changed_raises_attribute_error :
    itemLinkValueChanged
      { metadata := (itemLinkInit "c" true).metadata,
        originalValue := .list [.str "1", .str "2"] }
      (.dict [("item_ids", .list [.str "2", .str "1"])]) =
      .error .attributeError ∧
    decoded (itemLinkToNative (itemLinkInit "c" true) itemLinkPayload) =
      .error .keyError :=
  ⟨rfl, rfl⟩

/-- C6: the Number decode path is unreachable: to_native raises
AttributeError on the undefined _is_column_value for the wire texts "3" and
"3.5" of the claim, while validate_number does reject a non-numeric value and
accept an int as claimed. -/
theorem number_to_native_raises_attribute_error :
    numberToNative sampleState (mkPayload (.str "3") (.str "3")) =
      .error .attributeError ∧
    numberToNative sampleState (mkPayload (.str "3.5") (.str "3.5")) =
      .error .attributeError ∧
    numberValidate (.str "abc") = .error .validationError ∧
    numberValidate (.int 3) = .ok () :=
  ⟨rfl, rfl, rfl, rfl⟩

/-- C7: with a data mapping, Dropdown decoding behaves as claimed (fully
mapped text decodes to the mapped values, an unmapped label falls back to the
empty default), but a Dropdown constructed without a data mapping raises
AttributeError at decode time because __init__ never assigns _data_mapping. -/
theorem dropdown_decode_mapping_behavior_and_no_mapping_error :
    decoded (dropdownToNative (dropdownInit (some doneMapping)) sampleState
        (mkPayload (.str "Done") (.dict []))) = .ok (.list [.enum "DONE"]) ∧
    decoded (dropdownToNative (dropdownInit (some doneMapping)) sampleState
        (mkPayload (.str "Unknown") (.dict []))) = .ok (.list []) ∧
    decoded (dropdownToNative (dropdownInit Option.none) sampleState
        (mkPayload (.str "A") (.dict []))) = .error .attributeError :=
  ⟨rfl, rfl, rfl⟩

/-- C8: constructing a Status converter with any non-empty data mapping
raises TypeError, because __init__ subscripts the dict_values view returned
by data_mapping.values(). -/
theorem status_init_with_mapping_raises_type_error
    (m : List (String × PyValue)) (h : m ≠ []) :
    statusInit (some m) = .error .typeError := by
  cases m with
  | nil => exact absurd rfl h
  | cons a as => rfl

/-- Closed instance of the C8 theorem at the mapping of the claim. -/
theorem status_init_with_mapping_raises_type_error_witness :
    statusInit (some [("Done", .str "done")]) = .error .typeError :=
  status_init_with_mapping_raises_type_error _ (List.cons_ne_nil _ _)

/-- C9 counterexample: the claim quantifies over every converter class, but
NumberType is a concrete converter whose resolved null_value sentinel (the
empty string inherited from MondaySimpleType) is falsy, and its to_primitive
does not return None unconditionally: it overrides the base encoder and
renders 5 as "5". -/
theorem base_to_primitive_rail_counterexample :
    isConcreteConverter Cls.numberType = true ∧
    pyTruthy (nullValueOf Cls.numberType) = false ∧
    numberToPrimitive (.int 5) = .ok (.str "5") ∧
    numberToPrimitive (.int 5) ≠ (.ok PyValue.none : Except PyErr PyValue) := by
  refine ⟨rfl, rfl, rfl, ?_⟩
  intro h
  simp [numberToPrimitive, pyTruthy, pyStrOf] at h

/-- C9 amended: for every converter class that inherits
MondayType.to_primitive, the encoder returns None unconditionally when the
resolved null_value sentinel is falsy, returns the sentinel when the native
value is falsy, and otherwise delegates to the _export hook; among those
inheriting classes the falsy sentinel never occurs for a concrete converter
(it is the abstract contract whose sentinel is None). -/
theorem base_to_primitive_three_way_policy
    (c : Cls) (h : usesBaseToPrimitive c = true)
    (exportHook : PyValue → Except PyErr PyValue) (v : PyValue) :
    (pyTruthy (nullValueOf c) = false →
      baseToPrimitive (nullValueOf c) exportHook v = .ok PyValue.none) ∧
    (pyTruthy (nullValueOf c) = true → pyTruthy v = false →
      baseToPrimitive (nullValueOf c) exportHook v = .ok (nullValueOf c)) ∧
    (pyTruthy (nullValueOf c) = true → pyTruthy v = true →
      baseToPrimitive (nullValueOf c) exportHook v = exportHook v) ∧
    (isConcreteConverter c = true → pyTruthy (nullValueOf c) = true) := by
  refine ⟨fun h1 => ?_, fun h1 h2 => ?_, fun h1 h2 => ?_, fun hc => ?_⟩
  · simp [baseToPrimitive, h1]
  · simp [baseToPrimitive, h1, h2]
  · simp [baseToPrimitive, h1, h2]
  · revert hc
    revert h
    cases c <;> decide

/-- Closed instance of the C9 amended theorem at the Checkbox converter. -/
theorem base_to_primitive_three_way_policy_witness :
    usesBaseToPrimitive Cls.checkboxType = true ∧
    (pyTruthy (nullValueOf Cls.checkboxType) = true →
      pyTruthy (PyValue.bool true) = true →
      baseToPrimitive (nullValueOf Cls.checkboxType) checkboxExport
        (PyValue.bool true) = checkboxExport (PyValue.bool true)) :=
  ⟨rfl, (base_to_primitive_three_way_policy Cls.checkboxType rfl
    checkboxExport (PyValue.bool true)).2.2.1⟩

/-- C1: the round-trip law fails inside its claimed scope.  EmailType (which
is neither Subitems nor Mirror) decodes a schema-conforming payload to the
expected Email value, but re-encoding raises AttributeError because _export
reads self.email and self.text on the converter instance instead of the value
object. -/
theorem email_round_trip_raises_attribute_error :
    decoded (emailToNative sampleState emailPayload) =
      .ok (.emailVal (.str "a@b.com") (.str "hi")) ∧
    (do
      let r ← emailToNative sampleState emailPayload
      emailToPrimitive r.2) = .error .attributeError :=
  ⟨rfl, rfl⟩

end Moncli
